import Mathlib

/-!
Verification of the copy-service repository: a shallow embedding of the
storage-copy request path (service + HTTP route), the row-count aggregator,
the summary writer and the field extractor, together with proofs of the
behavioural properties stated in the specification.

The storage backend (copy_object / put_object / get_object / glob and the
parquet metadata reader) is external to the repository; each operation is
abstracted as a function argument, and the embedding records the calls the
code issues to it. Machine-level effects (logging, the event loop) carry no
data relevant to the properties and are dropped.
-/

set_option autoImplicit false

namespace CopyService

/-- Python list-level helper for rstrip: remove every trailing '/' character. -/
def rstripSlashData (l : List Char) : List Char :=
  (l.reverse.dropWhile (fun c => c == '/')).reverse

/-- Python rstrip with argument '/': `s.rstrip('/')`. -/
def pyRstripSlash (s : String) : String := ⟨rstripSlashData s.data⟩

/-- The destination-key normalization performed by `copy_s3_data`
(service portion, line 25): strip all trailing '/' then append one '/'. -/
def normalizeDestKey (s : String) : String := pyRstripSlash s ++ "/"

/-- ASCII whitespace recognized by Python str.strip with no arguments. -/
def isPySpace (c : Char) : Bool :=
  c == ' ' || c == '\t' || c == '\n' || c == '\r' || c == '\x0b' || c == '\x0c'

/-- List-level helper for strip: drop whitespace from both ends. -/
def stripData (l : List Char) : List Char :=
  ((l.dropWhile isPySpace).reverse.dropWhile isPySpace).reverse

/-- Python `s.strip()` (whitespace trimmed from both ends). -/
def pyStrip (s : String) : String := ⟨stripData s.data⟩

/-- List-level helper for split on a comma. On the empty list it yields one
empty field, matching Python where splitting the empty string on a separator
gives a single empty field. -/
def splitCommaData : List Char → List (List Char)
  | [] => [[]]
  | c :: rest =>
    match splitCommaData rest with
    | [] => [[]]
    | h :: t => if c = ',' then [] :: h :: t else (c :: h) :: t

/-- Python `s.split(',')`. -/
def pySplitComma (s : String) : List String :=
  (splitCommaData s.data).map (fun l => ⟨l⟩)

/-- The first line of a string: everything before the first newline. Used only
to state claims that speak about the first line of a downloaded content. -/
def firstLine (s : String) : String :=
  ⟨s.data.takeWhile (fun c => c ≠ '\n')⟩

/-- The CopySource dictionary handed to the backend copy call:
`{Bucket: source_bucket, Key: source_prefix + "/*"}` in the source. -/
structure CopySourceSpec where
  Bucket : String
  Key : String
  deriving DecidableEq

/-- One copy_object request as received by the storage backend. -/
structure CopyObjectCall where
  Bucket : String
  Key : String
  CopySource : CopySourceSpec
  deriving DecidableEq

/-- Shallow embedding of `copy_s3_data` (service portion, lines 21-34). The
storage backend is the function `s3_copy_object`, which either succeeds or
raises an error of type `E`. The result pairs the outcome — a backend error
is re-raised unchanged, success yields unit — with the list of copy_object
calls issued to the backend (the source issues exactly one). -/
def copy_s3_data {E : Type} (s3_copy_object : CopyObjectCall → Except E Unit)
    (source_bucket source_pfx dest_bucket dest_pfx : String) :
    Except E Unit × List CopyObjectCall :=
  let copy_source : CopySourceSpec := ⟨source_bucket, source_pfx ++ "/*"⟩
  let dest_pfx' := normalizeDestKey dest_pfx
  let call : CopyObjectCall := ⟨dest_bucket, dest_pfx', copy_source⟩
  (s3_copy_object call, [call])

/-- The request model (models portion, lines 76-83): four required string
fields, structurally validated by the framework before the route runs. -/
structure S3CopyRequest where
  source_bucket : String
  source_key : String
  dest_bucket : String
  dest_key : String
  deriving DecidableEq

/-- The observable body of a route response: either the fixed success message
object or the fixed error detail object. -/
inductive ResponseBody : Type where
  | message (s : String)
  | detail (s : String)
  deriving DecidableEq

/-- An HTTP response as observed by the client: status code and body. -/
structure HttpResponse where
  status : Nat
  body : ResponseBody
  deriving DecidableEq

/-- Shallow embedding of the POST /copy-s3-data/ route (routes portion, lines
111-128): invoke the copy service with the four request fields; on success
answer 202 with the fixed acknowledgement, on any exception answer 500 with
the fixed generic detail. The second component is the list of backend calls
issued while handling the request. -/
def initiate_copy_s3_data {E : Type} (s3_copy_object : CopyObjectCall → Except E Unit)
    (request : S3CopyRequest) : HttpResponse × List CopyObjectCall :=
  let r := copy_s3_data s3_copy_object request.source_bucket request.source_key
    request.dest_bucket request.dest_key
  match r.1 with
  | Except.ok _ =>
    (⟨202, ResponseBody.message "Copy operation initiated successfully."⟩, r.2)
  | Except.error _ =>
    (⟨500, ResponseBody.detail "An unexpected error occurred. Please try again later."⟩, r.2)

/-- A string ends in exactly one '/' character: its last character is '/'
and the character before it, when present, is not. -/
def endsInExactlyOneSlash (s : String) : Bool :=
  match s.data.reverse with
  | [] => false
  | [c] => c == '/'
  | c :: c' :: _ => c == '/' && !(c' == '/')

/-- Shallow embedding of `get_second_string_from_s3_file` (dataquality.py,
lines 3-22). The download-and-decode of the object body is abstracted as
`fetch`: `Except.ok` carries the UTF-8-decoded content, `Except.error` any
download or decode failure (both are caught by the bare except in the
source). -/
def get_second_string_from_s3_file {E : Type} (fetch : Except E String) : Option String :=
  match fetch with
  | Except.error _ => none
  | Except.ok body =>
    let line := pyStrip body
    let strings := pySplitComma line
    if 2 ≤ strings.length then
      some (pyStrip (strings.getD 1 ""))
    else
      none

/-- The loop of `aggregate_row_count_s3_folder`: fold the declared row counts
of the matched files into a running total, stopping at the first failure. -/
def aggLoop {α E : Type} (readMeta : α → Except E Nat) : Nat → List α → Except E Nat
  | total, [] => Except.ok total
  | total, f :: rest =>
    match readMeta f with
    | Except.ok n => aggLoop readMeta (total + n) rest
    | Except.error e => Except.error e

/-- Shallow embedding of `aggregate_row_count_s3_folder` (service portion,
lines 186-196). `parquet_files` is the glob result for `bucket/pfx/*.parquet`;
`readMeta` models opening one file and reading its parquet metadata row count,
and may fail. -/
def aggregate_row_count_s3_folder {α E : Type} (readMeta : α → Except E Nat)
    (parquet_files : List α) : Except E Nat :=
  aggLoop readMeta 0 parquet_files

/-- Models strftime with format string "%Y%m%d" applied to the current date
(y, m, d): four year digits, two zero-padded month digits, two zero-padded
day digits. Faithful for four-digit years, 1000 ≤ y ≤ 9999. -/
def strftime_yyyymmdd (y m d : Nat) : String :=
  ⟨[Nat.digitChar (y / 1000 % 10), Nat.digitChar (y / 100 % 10),
    Nat.digitChar (y / 10 % 10), Nat.digitChar (y % 10),
    Nat.digitChar (m / 10 % 10), Nat.digitChar (m % 10),
    Nat.digitChar (d / 10 % 10), Nat.digitChar (d % 10)]⟩

/-- UTF-8 encoding of one character, as byte values. -/
def utf8EncodeCharNat (c : Char) : List Nat :=
  let v := c.toNat
  if v < 128 then [v]
  else if v < 2048 then [192 + v / 64, 128 + v % 64]
  else if v < 65536 then [224 + v / 4096, 128 + v / 64 % 64, 128 + v % 64]
  else [240 + v / 262144, 128 + v / 4096 % 64, 128 + v / 64 % 64, 128 + v % 64]

/-- Python `s.encode()` with UTF-8, as a list of byte values. -/
def utf8Encode (s : String) : List Nat := s.data.flatMap utf8EncodeCharNat

/-- One put_object request as received by the storage backend. -/
structure PutObjectCall where
  Bucket : String
  Key : String
  Body : List Nat
  deriving DecidableEq

/-- Shallow embedding of `write_row_count_to_s3` (service portion, lines
228-244). The current date is the external input (y, m, d); the result is
the sequence of put_object requests issued to the backend (the source issues
exactly one). -/
def write_row_count_to_s3 (y m d : Nat) (bucket pfx : String) (row_count : Nat) :
    List PutObjectCall :=
  let today_date := strftime_yyyymmdd y m d
  let file_content := today_date ++ ", " ++ Nat.repr row_count
  let file_name := pfx ++ "/" ++ today_date ++ "_row_count.txt"
  [⟨bucket, file_name, utf8Encode file_content⟩]

/-! ### Helper lemmas on dropWhile and the rstrip helpers -/

theorem dropWhile_head_false {α : Type} (p : α → Bool) :
    ∀ (l : List α) (x : α) (t : List α), l.dropWhile p = x :: t → p x = false := by
  intro l
  induction l with
  | nil => intro x t h; simp [List.dropWhile] at h
  | cons a l ih =>
    intro x t h
    rw [List.dropWhile_cons] at h
    by_cases hp : p a
    · rw [if_pos hp] at h
      exact ih x t h
    · rw [if_neg hp] at h
      cases h
      simpa using hp

theorem dropWhile_dropWhile {α : Type} (p : α → Bool) (l : List α) :
    (l.dropWhile p).dropWhile p = l.dropWhile p := by
  cases h : l.dropWhile p with
  | nil => rfl
  | cons x t =>
    rw [List.dropWhile_cons, if_neg]
    simp [dropWhile_head_false p l x t h]

theorem rstripSlashData_concat_slash (l : List Char) :
    rstripSlashData (l ++ ['/']) = rstripSlashData l := by
  unfold rstripSlashData
  rw [List.reverse_append]
  simp only [List.reverse_cons, List.reverse_nil, List.nil_append, List.singleton_append]
  rw [List.dropWhile_cons, if_pos (by decide)]

theorem rstripSlashData_idem (l : List Char) :
    rstripSlashData (rstripSlashData l) = rstripSlashData l := by
  unfold rstripSlashData
  rw [List.reverse_reverse, dropWhile_dropWhile]

theorem normalizeDestKey_data (s : String) :
    (normalizeDestKey s).data = rstripSlashData s.data ++ ['/'] := rfl

/-- The normalized destination key ends in exactly one '/' separator. -/
theorem normalizeDestKey_endsInOne (s : String) :
    endsInExactlyOneSlash (normalizeDestKey s) = true := by
  unfold endsInExactlyOneSlash
  rw [normalizeDestKey_data, List.reverse_append]
  simp only [List.reverse_cons, List.reverse_nil, List.nil_append, List.singleton_append]
  have hr : (rstripSlashData s.data).reverse =
      s.data.reverse.dropWhile (fun c => c == '/') := by
    unfold rstripSlashData
    rw [List.reverse_reverse]
  rw [hr]
  cases hd : s.data.reverse.dropWhile (fun c => c == '/') with
  | nil => rfl
  | cons c' t =>
    have hc' := dropWhile_head_false _ _ _ _ hd
    simp only at hc'
    simp [hc']

/-- Normalization of the destination key is idempotent. -/
theorem normalizeDestKey_idem (s : String) :
    normalizeDestKey (normalizeDestKey s) = normalizeDestKey s := by
  show String.mk (rstripSlashData (rstripSlashData s.data ++ ['/']) ++ ['/']) =
    String.mk (rstripSlashData s.data ++ ['/'])
  rw [rstripSlashData_concat_slash, rstripSlashData_idem]

/-! ### Claims about the copy service and the HTTP route -/

/-- C1: for every structurally valid CopyRequest (four non-empty string
fields) for which the backend copy call succeeds, the route answers HTTP 202
with the fixed acknowledgement body, and the backend receives exactly one
copy request: destination bucket `dest_bucket`, destination key `dest_key`
with all trailing '/' stripped and exactly one '/' appended, and copy source
`{Bucket: source_bucket, Key: source_key + "/*"}`. -/
theorem C1_route_success {E : Type} (s3_copy_object : CopyObjectCall → Except E Unit)
    (request : S3CopyRequest)
    (h1 : request.source_bucket ≠ "") (h2 : request.source_key ≠ "")
    (h3 : request.dest_bucket ≠ "") (h4 : request.dest_key ≠ "")
    (hok : ∀ c, s3_copy_object c = Except.ok ()) :
    initiate_copy_s3_data s3_copy_object request =
      (⟨202, ResponseBody.message "Copy operation initiated successfully."⟩,
       [⟨request.dest_bucket, pyRstripSlash request.dest_key ++ "/",
         ⟨request.source_bucket, request.source_key ++ "/*"⟩⟩]) := by
  simp only [initiate_copy_s3_data, copy_s3_data]
  rw [hok]
  rfl

/-- Witness for C1 at the end-to-end example of the specification. -/
theorem C1_route_success_witness :
    initiate_copy_s3_data (E := String) (fun _ => Except.ok ()) ⟨"src", "in", "dst", "out/"⟩ =
      (⟨202, ResponseBody.message "Copy operation initiated successfully."⟩,
       [⟨"dst", "out/", ⟨"src", "in/*"⟩⟩]) := by
  have h := C1_route_success (E := String) (fun _ => Except.ok ())
    ⟨"src", "in", "dst", "out/"⟩ (by decide) (by decide) (by decide) (by decide)
    (fun c => rfl)
  exact h.trans (by decide)

/-- C3: the normalization performed by the copy service on the destination
key always yields a key ending in exactly one '/' separator, and it is
idempotent. -/
theorem C3_normalization (s : String) :
    endsInExactlyOneSlash (normalizeDestKey s) = true ∧
    normalizeDestKey (normalizeDestKey s) = normalizeDestKey s :=
  ⟨normalizeDestKey_endsInOne s, normalizeDestKey_idem s⟩

/-- C4: for every exception raised by the copy service during a structurally
valid request, the route answers exactly HTTP 500 with the fixed generic
detail body, whatever the underlying error is. -/
theorem C4_route_failure {E : Type} (s3_copy_object : CopyObjectCall → Except E Unit)
    (request : S3CopyRequest) (e : E)
    (h1 : request.source_bucket ≠ "") (h2 : request.source_key ≠ "")
    (h3 : request.dest_bucket ≠ "") (h4 : request.dest_key ≠ "")
    (herr : ∀ c, s3_copy_object c = Except.error e) :
    (initiate_copy_s3_data s3_copy_object request).1 =
      ⟨500, ResponseBody.detail "An unexpected error occurred. Please try again later."⟩ := by
  simp only [initiate_copy_s3_data, copy_s3_data]
  rw [herr]

/-- Witness for C4 with a concrete failing backend. -/
theorem C4_route_failure_witness :
    (initiate_copy_s3_data (E := String) (fun _ => Except.error "Connection error")
      ⟨"source-bucket", "source-key", "dest-bucket", "dest-key"⟩).1 =
      ⟨500, ResponseBody.detail "An unexpected error occurred. Please try again later."⟩ :=
  C4_route_failure (fun _ => Except.error "Connection error")
    ⟨"source-bucket", "source-key", "dest-bucket", "dest-key"⟩ "Connection error"
    (by decide) (by decide) (by decide) (by decide) (fun c => rfl)

/-- C6: for every backend error raised inside the copy operation, the copy
service re-raises the same error unchanged to its caller, issuing exactly one
backend call (no retry, no partial-progress tracking). -/
theorem C6_reraise_unchanged {E : Type} (s3_copy_object : CopyObjectCall → Except E Unit)
    (source_bucket source_pfx dest_bucket dest_pfx : String) (e : E)
    (herr : ∀ c, s3_copy_object c = Except.error e) :
    (copy_s3_data s3_copy_object source_bucket source_pfx dest_bucket dest_pfx).1 =
      Except.error e ∧
    (copy_s3_data s3_copy_object source_bucket source_pfx dest_bucket dest_pfx).2.length = 1 :=
  ⟨herr _, rfl⟩

/-- Witness for C6 with a concrete failing backend. -/
theorem C6_reraise_unchanged_witness :
    (copy_s3_data (E := String) (fun _ => Except.error "AccessDenied")
      "source-bucket" "source-folder" "dest-bucket" "dest-folder").1 =
      Except.error "AccessDenied" ∧
    (copy_s3_data (E := String) (fun _ => Except.error "AccessDenied")
      "source-bucket" "source-folder" "dest-bucket" "dest-folder").2.length = 1 :=
  C6_reraise_unchanged (fun _ => Except.error "AccessDenied")
    "source-bucket" "source-folder" "dest-bucket" "dest-folder" "AccessDenied"
    (fun c => rfl)

/-! ### Claims about the field extractor -/

/-- C2 counterexample: the extractor does not split the first line of the
content — it splits the whole whitespace-stripped content on commas. On the
two-line content containing a first line with a single comma-separated field
followed by a second line with two, the claim prescribes the absent sentinel,
yet the extractor returns the second field of the whole-content split. -/
theorem C2_counterexample :
    (pySplitComma (pyStrip (firstLine "x\ny,z"))).length < 2 ∧
    get_second_string_from_s3_file (Except.ok "x\ny,z" : Except String String) =
      some "z" := by
  decide

/-- C2 (amended): the extractor downloads the object, decodes it as UTF-8,
trims whitespace from both ends, and splits the entire stripped content on
commas; when that split yields at least two fields it returns the second
field trimmed of surrounding whitespace, otherwise the absent sentinel. In
particular it maps "a,b" to "b", "onlyone" to the absent sentinel, and
" a , b " to "b". -/
theorem C2_extractor_behavior :
    (∀ content : String, 2 ≤ (pySplitComma (pyStrip content)).length →
      get_second_string_from_s3_file (Except.ok content : Except String String) =
        some (pyStrip ((pySplitComma (pyStrip content)).getD 1 ""))) ∧
    (∀ content : String, (pySplitComma (pyStrip content)).length < 2 →
      get_second_string_from_s3_file (Except.ok content : Except String String) = none) ∧
    get_second_string_from_s3_file (Except.ok "a,b" : Except String String) = some "b" ∧
    get_second_string_from_s3_file (Except.ok "onlyone" : Except String String) = none ∧
    get_second_string_from_s3_file (Except.ok " a , b " : Except String String) =
      some "b" := by
  refine ⟨?_, ?_, by decide, by decide, by decide⟩
  · intro content h
    simp only [get_second_string_from_s3_file]
    rw [if_pos h]
  · intro content h
    simp only [get_second_string_from_s3_file]
    rw [if_neg (by omega)]

/-- Witness for C2 (amended) on a three-field content. -/
theorem C2_extractor_behavior_witness :
    get_second_string_from_s3_file (Except.ok "a,b,c" : Except String String) =
      some "b" := by
  have h := C2_extractor_behavior.1 "a,b,c" (by decide)
  exact h.trans (by decide)

/-- C9: a download or decode failure makes the extractor return the absent
sentinel rather than raising, the very value produced by a too-few-fields
content, so the two outcomes are indistinguishable to the caller. -/
theorem C9_error_conflated {E : Type} (e : E) :
    get_second_string_from_s3_file (Except.error e : Except E String) = none ∧
    get_second_string_from_s3_file (Except.error e : Except E String) =
      get_second_string_from_s3_file (Except.ok "onlyone" : Except E String) :=
  ⟨rfl, rfl⟩

/-- C10 counterexample: on a content whose first line is exactly two fields
with an empty second field, followed by a second line, the claim prescribes
the empty string, yet the extractor — splitting the whole stripped content —
returns the stripped remainder of the second line instead. -/
theorem C10_counterexample :
    2 ≤ (pySplitComma (pyStrip (firstLine "a,\nb"))).length ∧
    pyStrip ((pySplitComma (pyStrip (firstLine "a,\nb"))).getD 1 "") = "" ∧
    get_second_string_from_s3_file (Except.ok "a,\nb" : Except String String) =
      some "b" := by
  decide

/-- C10 (amended): for every content whose stripped content splits on commas
into at least two fields with a second field that is empty or whitespace-only
(such as "a,,c" or "a, ,c"), the extractor returns the empty string rather
than the absent sentinel; the absent sentinel on a successful download arises
only when the split has fewer than two fields, never from an empty second
field. -/
theorem C10_empty_second_field :
    (∀ content : String, 2 ≤ (pySplitComma (pyStrip content)).length →
      pyStrip ((pySplitComma (pyStrip content)).getD 1 "") = "" →
      get_second_string_from_s3_file (Except.ok content : Except String String) =
        some "") ∧
    (∀ content : String,
      get_second_string_from_s3_file (Except.ok content : Except String String) = none →
      (pySplitComma (pyStrip content)).length < 2) ∧
    get_second_string_from_s3_file (Except.ok "a,,c" : Except String String) = some "" ∧
    get_second_string_from_s3_file (Except.ok "a, ,c" : Except String String) =
      some "" := by
  refine ⟨?_, ?_, by decide, by decide⟩
  · intro content h hempty
    simp only [get_second_string_from_s3_file]
    rw [if_pos h, hempty]
  · intro content h
    simp only [get_second_string_from_s3_file] at h
    by_contra hlt
    rw [if_pos (by omega)] at h
    exact Option.noConfusion h

/-- Witness for C10 (amended) at the content with an empty second field. -/
theorem C10_empty_second_field_witness :
    get_second_string_from_s3_file (Except.ok "a,,c" : Except String String) =
      some "" :=
  C10_empty_second_field.1 "a,,c" (by decide) (by decide)

/-! ### Claims about the row-count aggregator -/

theorem aggLoop_ok {α E : Type} (counts : α → Nat) :
    ∀ (files : List α) (total : Nat),
      aggLoop (E := E) (fun f => Except.ok (counts f)) total files =
        Except.ok (total + (files.map counts).sum) := by
  intro files
  induction files with
  | nil => intro total; simp [aggLoop]
  | cons f rest ih =>
    intro total
    simp [aggLoop, ih, Nat.add_assoc]

theorem aggLoop_error {α E : Type} (readMeta : α → Except E Nat) :
    ∀ (files : List α) (total : Nat),
      (∃ f ∈ files, ∃ e, readMeta f = Except.error e) →
      ∃ e, aggLoop readMeta total files = Except.error e := by
  intro files
  induction files with
  | nil =>
    intro total h
    simp at h
  | cons g rest ih =>
    intro total h
    cases hg : readMeta g with
    | error e => exact ⟨e, by simp [aggLoop, hg]⟩
    | ok n =>
      have hrest : ∃ f ∈ rest, ∃ e, readMeta f = Except.error e := by
        rcases h with ⟨f, hf, e, he⟩
        rcases List.mem_cons.mp hf with rfl | hf'
        · rw [hg] at he
          exact Except.noConfusion he
        · exact ⟨f, hf', e, he⟩
      rcases ih (total + n) hrest with ⟨e, he⟩
      exact ⟨e, by simp [aggLoop, hg, he]⟩

/-- C5: aggregation over an empty list of matched parquet files returns 0,
over files whose metadata reads succeed with declared counts it returns
exactly their sum, and the result does not depend on the order in which the
files are listed. -/
theorem C5_aggregate_sum {α E : Type} (counts : α → Nat) :
    aggregate_row_count_s3_folder (E := E) (fun f => Except.ok (counts f)) ([] : List α) =
      Except.ok 0 ∧
    (∀ files : List α,
      aggregate_row_count_s3_folder (E := E) (fun f => Except.ok (counts f)) files =
        Except.ok (files.map counts).sum) ∧
    (∀ files1 files2 : List α, List.Perm files1 files2 →
      aggregate_row_count_s3_folder (E := E) (fun f => Except.ok (counts f)) files1 =
        aggregate_row_count_s3_folder (E := E) (fun f => Except.ok (counts f)) files2) := by
  have hsum : ∀ files : List α,
      aggregate_row_count_s3_folder (E := E) (fun f => Except.ok (counts f)) files =
        Except.ok (files.map counts).sum := by
    intro files
    unfold aggregate_row_count_s3_folder
    rw [aggLoop_ok]
    simp
  refine ⟨by simpa using hsum [], hsum, ?_⟩
  intro l1 l2 hp
  rw [hsum, hsum]
  exact congrArg Except.ok (List.Perm.sum_eq (hp.map counts))

/-- Witness for C5: two permutations of three declared counts aggregate to
the same total, 123. -/
theorem C5_aggregate_sum_witness :
    aggregate_row_count_s3_folder (E := String) (fun f : Nat => Except.ok f) [100, 20, 3] =
      aggregate_row_count_s3_folder (E := String) (fun f : Nat => Except.ok f) [3, 100, 20] ∧
    aggregate_row_count_s3_folder (E := String) (fun f : Nat => Except.ok f) [100, 20, 3] =
      Except.ok 123 := by
  have h := (C5_aggregate_sum (E := String) (fun f : Nat => f)).2.2
    [100, 20, 3] [3, 100, 20] (by decide)
  exact ⟨h, rfl⟩

/-- C7: if reading the metadata of any single matched file fails, the whole
aggregation fails with an error — no partial total is returned and no file
is skipped. -/
theorem C7_aggregate_propagates {α E : Type} (readMeta : α → Except E Nat)
    (files : List α) (h : ∃ f ∈ files, ∃ e, readMeta f = Except.error e) :
    ∃ e, aggregate_row_count_s3_folder readMeta files = Except.error e :=
  aggLoop_error readMeta files 0 h

/-- Witness for C7: one unreadable file among three fails the aggregation. -/
theorem C7_aggregate_propagates_witness :
    ∃ e, aggregate_row_count_s3_folder
      (fun n : Nat => if n = 0 then Except.error "unreadable" else Except.ok n)
      [1, 0, 2] = Except.error e :=
  C7_aggregate_propagates
    (fun n : Nat => if n = 0 then Except.error "unreadable" else Except.ok n)
    [1, 0, 2] ⟨0, by decide, "unreadable", rfl⟩

/-! ### Claims about the summary writer -/

theorem digitChar_isDigit_of_lt (k : Nat) (h : k < 10) :
    (Nat.digitChar k).isDigit = true := by
  interval_cases k <;> decide

theorem toDigitsCore_digits (fuel : Nat) :
    ∀ (n : Nat) (acc : List Char), (∀ c ∈ acc, c.isDigit = true) →
      ∀ c ∈ Nat.toDigitsCore 10 fuel n acc, c.isDigit = true := by
  induction fuel with
  | zero =>
    intro n acc hacc c hc
    simp only [Nat.toDigitsCore] at hc
    exact hacc c hc
  | succ fuel ih =>
    intro n acc hacc c hc
    simp only [Nat.toDigitsCore] at hc
    have hcons : ∀ c' ∈ Nat.digitChar (n % 10) :: acc, c'.isDigit = true := by
      intro c' hc'
      rcases List.mem_cons.mp hc' with rfl | hmem
      · exact digitChar_isDigit_of_lt _ (Nat.mod_lt _ (by omega))
      · exact hacc c' hmem
    by_cases h0 : n / 10 = 0
    · rw [if_pos h0] at hc
      exact hcons c hc
    · rw [if_neg h0] at hc
      exact ih (n / 10) (Nat.digitChar (n % 10) :: acc) hcons c hc

theorem repr_digits (n : Nat) : ∀ c ∈ (Nat.repr n).data, c.isDigit = true :=
  toDigitsCore_digits (n + 1) n [] (fun c hc => absurd hc (List.not_mem_nil c))

theorem strftime_digits (y m d : Nat) :
    ∀ c ∈ (strftime_yyyymmdd y m d).data, c.isDigit = true := by
  intro c hc
  have hc' : c ∈ [Nat.digitChar (y / 1000 % 10), Nat.digitChar (y / 100 % 10),
      Nat.digitChar (y / 10 % 10), Nat.digitChar (y % 10),
      Nat.digitChar (m / 10 % 10), Nat.digitChar (m % 10),
      Nat.digitChar (d / 10 % 10), Nat.digitChar (d % 10)] := hc
  simp only [List.mem_cons, List.not_mem_nil, or_false] at hc'
  rcases hc' with rfl | rfl | rfl | rfl | rfl | rfl | rfl | rfl <;>
    exact digitChar_isDigit_of_lt _ (Nat.mod_lt _ (by omega))

theorem content_no_newline (y m d rc : Nat) :
    '\n' ∉ (strftime_yyyymmdd y m d ++ ", " ++ Nat.repr rc).data := by
  intro h
  rw [String.data_append, String.data_append] at h
  rcases List.mem_append.mp h with h1 | h2
  · rcases List.mem_append.mp h1 with ha | hb
    · exact absurd (strftime_digits y m d _ ha) (by decide)
    · exact absurd hb (by decide)
  · exact absurd (repr_digits rc _ h2) (by decide)

/-- C8: for every current date (y, m, d) with a four-digit year and every
bucket, key prefix and row count, the summary writer uploads exactly one
object, keyed by the prefix, the date formatted as an 8-digit all-digit
YYYYMMDD string, and the suffix "_row_count.txt", whose body is the UTF-8
encoding of the single line made of the date, a comma and one space, and the
decimal row count, with no trailing newline (the line contains no newline at
all). -/
theorem C8_write_summary (y m d : Nat)
    (hy1 : 1000 ≤ y) (hy2 : y ≤ 9999) (hm1 : 1 ≤ m) (hm2 : m ≤ 12)
    (hd1 : 1 ≤ d) (hd2 : d ≤ 31) (bucket pfx : String) (row_count : Nat) :
    (strftime_yyyymmdd y m d).length = 8 ∧
    (∀ c ∈ (strftime_yyyymmdd y m d).data, c.isDigit = true) ∧
    write_row_count_to_s3 y m d bucket pfx row_count =
      [⟨bucket, pfx ++ "/" ++ strftime_yyyymmdd y m d ++ "_row_count.txt",
        utf8Encode (strftime_yyyymmdd y m d ++ ", " ++ Nat.repr row_count)⟩] ∧
    '\n' ∉ (strftime_yyyymmdd y m d ++ ", " ++ Nat.repr row_count).data :=
  ⟨rfl, strftime_digits y m d, rfl, content_no_newline y m d row_count⟩

/-- Witness for C8 at the date and count used by the repository's own test. -/
theorem C8_write_summary_witness :
    write_row_count_to_s3 2022 4 6 "test_bucket" "reports" 100 =
      [⟨"test_bucket", "reports/20220406_row_count.txt",
        utf8Encode "20220406, 100"⟩] := by
  have h := C8_write_summary 2022 4 6 (by decide) (by decide) (by decide) (by decide)
    (by decide) (by decide) "test_bucket" "reports" 100
  exact (h.2.2.1).trans (by decide)

end CopyService
